import Mathlib

/-!
Verification of the medical-records CRUD service
(src/services/medical-records-service/main.go) via a shallow embedding.

The service is a thin Gin HTTP layer over a MongoDB collection named
medical_records.  We embed each handler as a pure Lean function from its
request data and the collection state to a response and the new state.
Time is modelled as a Nat (an abstract clock value passed in by the
caller); the generated ObjectID of a create is likewise a parameter.
MongoDB ObjectIDs are modelled as the Nat obtained by reading the 24
hex digits of their canonical hex form; the collection is a list of
documents, unique in their id field (the _id unique index).

Notes on library behaviour that the embedding has to reflect:
  - strconv.Atoi returns 0 together with an error on a malformed input,
    and the nearest int64 bound together with a range error on an
    out-of-range numeric input; the handlers discard the error, so a
    malformed value reaches the rest of the handler as 0 and an
    out-of-range one as the clamped bound.
  - The Go int of the handler is 64 bits wide: sums and products wrap
    modulo 2 to the 64 in two's complement, division truncates toward
    zero (wrapping at the lone minInt64 / -1 overflow) and panics on a
    zero divisor; gin.Recovery turns the panic into a 500 response.
  - The validator package (validate.Struct) checks tags on top level
    fields and recurses into plain nested structs, but it does not
    descend into slice elements unless the slice field carries a dive
    tag.  None of the slice fields of MedicalRecord carry one, so the
    oneof tags inside Diagnosis and LabResult entries are never checked.
  - bson marshalling of MedicalRecord emits every field except ID,
    which carries omitempty and is dropped when it is the zero id; so
    the update handlers $set document rewrites every stored field,
    created_at included, from the decoded request body.
  - MongoDB rejects a find with a negative skip; a negative limit is
    read as: return at most that many documents (absolute value).
-/

/-- A diagnosis entry nested in a medical record (struct Diagnosis). -/
structure Diagnosis where
  code : String
  description : String
  severity : String
  status : String
  date_diagnosed : Nat
  deriving Repr, DecidableEq

/-- A prescription entry nested in a medical record (struct Prescription). -/
structure Prescription where
  medication_name : String
  dosage : String
  frequency : String
  duration : String
  instructions : String
  prescribed_date : Nat
  start_date : Nat
  end_date : Nat
  deriving Repr, DecidableEq

/-- A lab result entry nested in a medical record (struct LabResult). -/
structure LabResult where
  test_name : String
  test_code : String
  result : String
  unit : String
  reference_range : String
  status : String
  test_date : Nat
  lab_name : String
  deriving Repr, DecidableEq

/-- The vital signs block (struct VitalSigns).  The Go float64 fields are
only ever stored and copied by the service, never computed with, so they
are carried here as Int values. -/
structure VitalSigns where
  blood_pressure_systolic : Int
  blood_pressure_diastolic : Int
  heart_rate : Int
  temperature : Int
  respiratory_rate : Int
  oxygen_saturation : Int
  weight : Int
  height : Int
  bmi : Int
  measured_at : Nat
  deriving Repr, DecidableEq

/-- An attachment entry (struct Attachment). -/
structure Attachment where
  file_name : String
  file_type : String
  file_size : Int
  storage_path : String
  uploaded_at : Nat
  description : String
  deriving Repr, DecidableEq

/-- The MedicalRecord document (struct MedicalRecord).  The id field is
the ObjectID as a Nat; 0 is the zero ObjectID, which bson omits thanks
to the omitempty tag.  A Go nil slice and an empty slice both read back
as the empty list here (bson null and the empty array have size 0 under
the $ifNull used by the summary pipeline). -/
structure MedicalRecord where
  id : Nat
  patient_id : String
  doctor_id : String
  appointment_id : String
  record_type : String
  title : String
  description : String
  diagnosis : List Diagnosis
  prescriptions : List Prescription
  lab_results : List LabResult
  vital_signs : Option VitalSigns
  attachments : List Attachment
  is_confidential : Bool
  created_at : Nat
  updated_at : Nat
  created_by : String
  last_modified_by : String
  deriving Repr, DecidableEq

/-- The medical_records collection: documents in insertion order. -/
abbrev Store := List MedicalRecord

/-- Hex digit test used by primitive.ObjectIDFromHex (encoding/hex). -/
def isHexDigitChar (c : Char) : Bool :=
  c.isDigit || (('a' ≤ c) && (c ≤ 'f')) || (('A' ≤ c) && (c ≤ 'F'))

/-- Numeric value of a hex digit. -/
def hexVal (c : Char) : Nat :=
  if c.isDigit then c.toNat - 48
  else if ('a' ≤ c) && (c ≤ 'f') then c.toNat - 87
  else c.toNat - 55

/-- primitive.ObjectIDFromHex: a string parses as an ObjectID exactly
when it has 24 characters, all hex digits; the result is the number the
digits denote (case insensitive, as hex decoding is). -/
def objectIDFromHex (s : String) : Option Nat :=
  if s.data.length = 24 && s.data.all isHexDigitChar then
    some (s.data.foldl (fun a c => a * 16 + hexVal c) 0)
  else
    none

/-- Digits of a decimal literal, none when empty or not all digits. -/
def decDigits : List Char → Option Nat
  | [] => none
  | cs =>
    if cs.all Char.isDigit then
      some (cs.foldl (fun a c => a * 10 + (c.toNat - 48)) 0)
    else
      none

/-- strconv.Atoi, successful case: an optional sign then digits. -/
def atoiOpt (s : String) : Option Int :=
  match s.data with
  | '+' :: rest => (decDigits rest).map Int.ofNat
  | '-' :: rest => (decDigits rest).map (fun n => -(Int.ofNat n))
  | cs => (decDigits cs).map Int.ofNat

/-- The largest Go int64, 2 to the 63 minus 1. -/
def maxInt64 : Int := 9223372036854775807

/-- The smallest Go int64, minus 2 to the 63. -/
def minInt64 : Int := -9223372036854775808

/-- The clamping strconv.ParseInt applies on a range error: the nearest
int64 bound of the appropriate sign. -/
def clampInt64 (n : Int) : Int :=
  if n > maxInt64 then maxInt64
  else if n < minInt64 then minInt64
  else n

/-- Two's complement wrap of Go 64-bit int arithmetic: the
representative of n modulo 2 to the 64 lying in the int64 range. -/
def wrap64 (n : Int) : Int :=
  (n + 9223372036854775808) % 18446744073709551616 - 9223372036854775808

/-- strconv.Atoi as the handlers use it: the error is discarded, so a
malformed input becomes 0 and an out-of-range numeric input the
clamped int64 bound. -/
def atoi (s : String) : Int := clampInt64 ((atoiOpt s).getD 0)

/-- FindOne on the collection by _id: first document whose id matched. -/
def findByID (oid : Nat) (store : Store) : Option MedicalRecord :=
  store.find? (fun r => r.id == oid)

/-- DeleteOne by _id: removes the first matching document. -/
def removeFirst (oid : Nat) : Store → Store
  | [] => []
  | r :: rest => if r.id == oid then rest else r :: removeFirst oid rest

/-- UpdateOne by _id: replaces the first matching document. -/
def replaceFirst (oid : Nat) (newDoc : MedicalRecord) : Store → Store
  | [] => []
  | r :: rest => if r.id == oid then newDoc :: rest else r :: replaceFirst oid newDoc rest

/-- The closed set of the record_type oneof tag. -/
def recordTypeValues : List String :=
  ["consultation", "diagnosis", "prescription", "lab_result", "imaging"]

/-- The closed set of the Diagnosis severity oneof tag. -/
def severityValues : List String := ["mild", "moderate", "severe", "critical"]

/-- The closed set of the Diagnosis status oneof tag. -/
def diagnosisStatusValues : List String := ["active", "resolved", "chronic"]

/-- The closed set of the LabResult status oneof tag. -/
def labStatusValues : List String := ["normal", "abnormal", "critical"]

/-- validate.Struct on a MedicalRecord, as the validator actually
behaves: the required tags on PatientID, DoctorID, RecordType and Title
and the oneof tag on RecordType are checked; the tags inside the
Diagnosis, Prescriptions, LabResults and Attachments slices are not
reached because those fields carry no dive tag.  The result is the list
of field names the validation error reports (empty when valid; the
empty string fails the RecordType oneof as well as its required tag, so
one membership test covers both). -/
def validationIssues (r : MedicalRecord) : List String :=
  (if r.patient_id = "" then ["PatientID"] else []) ++
  (if r.doctor_id = "" then ["DoctorID"] else []) ++
  (if recordTypeValues.contains r.record_type then [] else ["RecordType"]) ++
  (if r.title = "" then ["Title"] else [])

/-- Response of GET /api/medical-records/:id. -/
inductive GetResult where
  | ok (r : MedicalRecord)
  | invalidArgument
  | notFound
  deriving Repr, DecidableEq

/-- Response of POST /api/medical-records. -/
inductive CreateResult where
  | created (r : MedicalRecord)
  | bindError
  | validationError (fields : List String)
  | internalError
  deriving Repr, DecidableEq

/-- Response of PUT /api/medical-records/:id. -/
inductive UpdateResult where
  | ok (r : MedicalRecord)
  | invalidArgument
  | bindError
  | notFound
  | internalError
  deriving Repr, DecidableEq

/-- Response of DELETE /api/medical-records/:id. -/
inductive DeleteResult where
  | noContent
  | invalidArgument
  | notFound
  deriving Repr, DecidableEq

/-- Body of a successful GET /api/medical-records response. -/
structure ListResponse where
  records : List MedicalRecord
  total : Int
  page : Int
  limit : Int
  total_pages : Int
  has_next : Bool
  has_previous : Bool
  deriving Repr, DecidableEq

/-- Response of GET /api/medical-records.  panicked is the integer
division by zero in the total_pages computation, which gin.Recovery
turns into a 500; internalError is a store error surfaced as 500. -/
inductive ListResult where
  | ok (resp : ListResponse)
  | internalError
  | panicked
  deriving Repr, DecidableEq

/-- Body of a successful GET /api/patients/:patient_id/summary response
(the single $group document of the aggregation). -/
structure PatientSummary where
  patient_id : String
  total_records : Nat
  record_types : List String
  latest_record : Nat
  total_diagnoses : Nat
  total_prescriptions : Nat
  total_lab_results : Nat
  deriving Repr, DecidableEq

/-- Response of GET /api/patients/:patient_id/summary. -/
inductive SummaryResult where
  | ok (s : PatientSummary)
  | badRequest
  | notFound
  deriving Repr, DecidableEq

/-- The created_at descending sort of the list endpoint (insertion
sort; the order among equal keys is not specified by the store). -/
def insertByCreated (r : MedicalRecord) : List MedicalRecord → List MedicalRecord
  | [] => [r]
  | x :: xs => if Nat.ble x.created_at r.created_at then r :: x :: xs
               else x :: insertByCreated r xs

/-- Sort by created_at descending. -/
def sortByCreatedDesc : List MedicalRecord → List MedicalRecord
  | [] => []
  | r :: rest => insertByCreated r (sortByCreatedDesc rest)

/-- getMedicalRecord: parse the :id parameter, then FindOne by _id.
The handler performs no write, so the store comes back unchanged. -/
def getMedicalRecord (id : String) (store : Store) : GetResult × Store :=
  match objectIDFromHex id with
  | none => (.invalidArgument, store)
  | some oid =>
    match findByID oid store with
    | none => (.notFound, store)
    | some r => (.ok r, store)

/-- createMedicalRecord: bind the body (none models a bind failure),
run validate.Struct, then set ID, CreatedAt and UpdatedAt and InsertOne.
newId is the ObjectID primitive.NewObjectID generated; now is the
time.Now() value.  InsertOne fails on a duplicate _id (unique index),
surfaced as a 500 with nothing persisted. -/
def createMedicalRecord (body : Option MedicalRecord) (newId now : Nat)
    (store : Store) : CreateResult × Store :=
  match body with
  | none => (.bindError, store)
  | some r0 =>
    if validationIssues r0 = [] then
      let r := { r0 with id := newId, created_at := now, updated_at := now }
      match findByID newId store with
      | some _ => (.internalError, store)
      | none => (.created r, store ++ [r])
    else
      (.validationError (validationIssues r0), store)

/-- updateMedicalRecord: parse the :id parameter first, then bind the
body, set UpdatedAt to now, and UpdateOne with a $set of the whole
marshalled struct: every field except ID is always in the $set document
(ID only when the body carried a nonzero id, in which case the store
rejects a change of the immutable _id).  On MatchedCount 0 the handler
returns 404; otherwise it re-reads the document and returns it. -/
def updateMedicalRecord (id : String) (body : Option MedicalRecord)
    (now : Nat) (store : Store) : UpdateResult × Store :=
  match objectIDFromHex id with
  | none => (.invalidArgument, store)
  | some oid =>
    match body with
    | none => (.bindError, store)
    | some u =>
      let u' := { u with updated_at := now }
      match findByID oid store with
      | none => (.notFound, store)
      | some _ =>
        if u'.id ≠ 0 ∧ u'.id ≠ oid then (.internalError, store)
        else
          let newDoc := { u' with id := oid }
          let store' := replaceFirst oid newDoc store
          match findByID oid store' with
          | some r => (.ok r, store')
          | none => (.internalError, store')

/-- deleteMedicalRecord: parse the :id parameter, DeleteOne by _id;
404 when DeletedCount is 0, 204 otherwise. -/
def deleteMedicalRecord (id : String) (store : Store) : DeleteResult × Store :=
  match objectIDFromHex id with
  | none => (.invalidArgument, store)
  | some oid =>
    match findByID oid store with
    | none => (.notFound, store)
    | some _ => (.noContent, removeFirst oid store)

/-- The filter of the list endpoint: exact match equality on patient_id
and record_type, each only when the query value is nonempty. -/
def matchesFilter (pid rt : String) (r : MedicalRecord) : Bool :=
  (pid == "" || r.patient_id == pid) && (rt == "" || r.record_type == rt)

/-- getMedicalRecords: page and limit come through c.DefaultQuery (so
none means the default string) and strconv.Atoi with the error
discarded.  CountDocuments, then Find with sort created_at descending,
skip (pageNum-1)*limitNum and limit limitNum; the store rejects a
negative skip (500), a zero limit means no limit and a negative limit
returns at most its absolute value.  The arithmetic is Go 64-bit int
arithmetic: the skip product and the total+limit-1 sum wrap modulo 2 to
the 64, and total_pages is truncating division (which panics on a zero
limit and wraps at minInt64 / -1). -/
def getMedicalRecords (pid rt : String) (page limit : Option String)
    (store : Store) : ListResult × Store :=
  let pageNum := atoi (page.getD "1")
  let limitNum := atoi (limit.getD "10")
  let skip := wrap64 ((pageNum - 1) * limitNum)
  let matched := store.filter (matchesFilter pid rt)
  let total : Int := Int.ofNat matched.length
  if skip < 0 then (.internalError, store)
  else
    let afterSkip := (sortByCreatedDesc matched).drop skip.toNat
    let docs := if limitNum = 0 then afterSkip else afterSkip.take limitNum.natAbs
    if limitNum = 0 then (.panicked, store)
    else
      let totalPages := wrap64 (Int.tdiv (wrap64 (total + limitNum - 1)) limitNum)
      (.ok { records := docs, total := total, page := pageNum,
             limit := limitNum, total_pages := totalPages,
             has_next := decide (pageNum < totalPages),
             has_previous := decide (1 < pageNum) }, store)

/-- getPatientSummary: the aggregation $match on patient_id and single
$group with $sum 1, $addToSet record_type, $max created_at and the
three $sum of $size of $ifNull(field, []) counters; 404 when the match
stage selects nothing. -/
def getPatientSummary (pid : String) (store : Store) : SummaryResult × Store :=
  if pid = "" then (.badRequest, store)
  else
    let matched := store.filter (fun r => r.patient_id == pid)
    if matched.isEmpty then (.notFound, store)
    else
      (.ok { patient_id := pid,
             total_records := matched.length,
             record_types := (matched.map (fun r => r.record_type)).eraseDups,
             latest_record := (matched.map (fun r => r.created_at)).foldl Nat.max 0,
             total_diagnoses := (matched.map (fun r => r.diagnosis.length)).sum,
             total_prescriptions := (matched.map (fun r => r.prescriptions.length)).sum,
             total_lab_results := (matched.map (fun r => r.lab_results.length)).sum },
       store)

/-- Modelled from the spec: the total_pages formula of the testable
properties section, ceil(total / limit), as exact integer ceiling
division (the ceiling of the rational quotient). -/
def ceilDivSpec (a b : Int) : Int := -(Int.fdiv (-a) b)

/-- Modelled from the spec: sum over records of the length of the
diagnosis sequence, an absent sequence counting as zero. -/
def sumDiagLens : List MedicalRecord → Nat
  | [] => 0
  | r :: rest => r.diagnosis.length + sumDiagLens rest

/-- Modelled from the spec: sum of prescription sequence lengths. -/
def sumPresLens : List MedicalRecord → Nat
  | [] => 0
  | r :: rest => r.prescriptions.length + sumPresLens rest

/-- Modelled from the spec: sum of lab result sequence lengths. -/
def sumLabLens : List MedicalRecord → Nat
  | [] => 0
  | r :: rest => r.lab_results.length + sumLabLens rest

/-- A record with every field at its zero value, for building concrete
documents. -/
def emptyRecord : MedicalRecord :=
  { id := 0, patient_id := "", doctor_id := "", appointment_id := "",
    record_type := "", title := "", description := "",
    diagnosis := [], prescriptions := [], lab_results := [],
    vital_signs := none, attachments := [], is_confidential := false,
    created_at := 0, updated_at := 0, created_by := "",
    last_modified_by := "" }

/-- A stored document: created at clock 5 with a nonempty description. -/
def origRecord : MedicalRecord :=
  { emptyRecord with
    id := 1,
    patient_id := "p1",
    doctor_id := "d1",
    record_type := "consultation",
    title := "Checkup",
    description := "keep me",
    created_at := 5,
    updated_at := 5 }

/-- An update/create body: valid top level fields, nothing else; in
particular its created_at is the Go zero time, as when the client
omits the field. -/
def updPayload : MedicalRecord :=
  { emptyRecord with
    patient_id := "p1",
    doctor_id := "d1",
    record_type := "consultation",
    title := "Renamed" }

/-- A body whose record_type is outside the enumerated set. -/
def bogusTypePayload : MedicalRecord :=
  { emptyRecord with
    patient_id := "p1",
    doctor_id := "d1",
    record_type := "experimental_surgery",
    title := "Bogus" }

/-- A diagnosis entry whose severity and status are outside their
closed sets. -/
def badDiagnosis : Diagnosis :=
  { code := "X99", description := "test", severity := "catastrophic",
    status := "imaginary", date_diagnosed := 0 }

/-- A create body that is valid at top level but carries a nested
diagnosis entry with out-of-set enum values. -/
def nestedBadPayload : MedicalRecord :=
  { emptyRecord with
    patient_id := "p1",
    doctor_id := "d1",
    record_type := "diagnosis",
    title := "Nested",
    diagnosis := [badDiagnosis] }

/-- A second document for the same patient, with two diagnosis
entries. -/
def secondRecord : MedicalRecord :=
  { emptyRecord with
    id := 2,
    patient_id := "p1",
    doctor_id := "d1",
    record_type := "diagnosis",
    title := "Findings",
    diagnosis := [{ code := "A", description := "a", severity := "mild",
                    status := "active", date_diagnosed := 6 },
                  { code := "B", description := "b", severity := "severe",
                    status := "chronic", date_diagnosed := 7 }],
    created_at := 6,
    updated_at := 6 }

/-- The list response page 1 of the one-document store, used to
instantiate the pagination theorem. -/
def respW : ListResponse :=
  { records := [origRecord], total := 1, page := 1, limit := 10,
    total_pages := 1, has_next := false, has_previous := false }

section Helpers

/-- A find by id over an extended store falls through to the new
document when the old store has no match. -/
theorem findByID_append_right {oid : Nat} {store : Store}
    (h : findByID oid store = none) {r : MedicalRecord} (hr : r.id = oid) :
    findByID oid (store ++ [r]) = some r := by
  unfold findByID at h ⊢
  rw [List.find?_append, h]
  simp [List.find?_cons, hr]

/-- No document is found when the id is absent from the store. -/
theorem findByID_eq_none_of_not_mem {oid : Nat} {store : Store}
    (h : oid ∉ store.map (fun r => r.id)) : findByID oid store = none := by
  unfold findByID
  rw [List.find?_eq_none]
  intro x hx
  simp only [beq_iff_eq]
  intro hcontra
  exact h (List.mem_map.mpr ⟨x, hx, hcontra⟩)

/-- After removing the match of a unique id, the id finds nothing. -/
theorem findByID_removeFirst (oid : Nat) :
    ∀ {store : Store}, (store.map (fun r => r.id)).Nodup →
      findByID oid (removeFirst oid store) = none := by
  intro store
  induction store with
  | nil => intro _; rfl
  | cons r rest ih =>
    intro hnd
    rw [List.map_cons, List.nodup_cons] at hnd
    unfold removeFirst
    by_cases h : r.id = oid
    · rw [if_pos (by simp [h])]
      apply findByID_eq_none_of_not_mem
      rw [← h]
      exact hnd.1
    · rw [if_neg (by simp [h])]
      unfold findByID
      rw [List.find?_cons_of_neg _ (by simp [h])]
      exact ih hnd.2

/-- Replacing the first match of an id by a document with that id makes
that document the find result. -/
theorem findByID_replaceFirst (oid : Nat) (newDoc : MedicalRecord)
    (hid : newDoc.id = oid) :
    ∀ {store : Store} {old : MedicalRecord}, findByID oid store = some old →
      findByID oid (replaceFirst oid newDoc store) = some newDoc := by
  intro store
  induction store with
  | nil => intro old h; simp [findByID] at h
  | cons r rest ih =>
    intro old h
    unfold replaceFirst
    by_cases hr : r.id = oid
    · rw [if_pos (by simp [hr])]
      unfold findByID
      rw [List.find?_cons_of_pos _ (by simp [hid])]
    · rw [if_neg (by simp [hr])]
      unfold findByID at h ⊢
      rw [List.find?_cons_of_neg _ (by simp [hr])] at h ⊢
      exact ih h

/-- The summed mapped lengths agree with the spec-modelled recursive
sum for diagnoses. -/
theorem sumDiagLens_eq (l : List MedicalRecord) :
    (l.map (fun r => r.diagnosis.length)).sum = sumDiagLens l := by
  induction l with
  | nil => rfl
  | cons r rest ih => simp [sumDiagLens, ih]

/-- The summed mapped lengths agree with the spec-modelled recursive
sum for prescriptions. -/
theorem sumPresLens_eq (l : List MedicalRecord) :
    (l.map (fun r => r.prescriptions.length)).sum = sumPresLens l := by
  induction l with
  | nil => rfl
  | cons r rest ih => simp [sumPresLens, ih]

/-- The summed mapped lengths agree with the spec-modelled recursive
sum for lab results. -/
theorem sumLabLens_eq (l : List MedicalRecord) :
    (l.map (fun r => r.lab_results.length)).sum = sumLabLens l := by
  induction l with
  | nil => rfl
  | cons r rest ih => simp [sumLabLens, ih]

/-- Euclidean division of -1 by a positive divisor. -/
theorem neg_one_ediv_pos {b : Int} (hb : 0 < b) : (-1 : Int) / b = -1 := by
  have h := Int.add_mul_ediv_right (b - 1) (-1) (by omega : b ≠ 0)
  have e : (b - 1 + (-1) * b) = (-1 : Int) := by ring
  rw [e] at h
  have z : (b - 1) / b = 0 := Int.ediv_eq_zero_of_lt (by omega) (by omega)
  rw [z] at h
  linarith [h]

/-- Euclidean division of a negated remainder by a positive divisor. -/
theorem neg_emod_ediv_pos {r b : Int} (hr1 : 1 ≤ r) (hrb : r < b) :
    (-r) / b = -1 := by
  have h := Int.add_mul_ediv_right (b - r) (-1) (by omega : b ≠ 0)
  have e : (b - r + (-1) * b) = -r := by ring
  rw [e] at h
  have z : (b - r) / b = 0 := Int.ediv_eq_zero_of_lt (by omega) (by omega)
  rw [z] at h
  linarith [h]

/-- The Go total_pages formula, truncating division of total+limit-1 by
limit, computes exact ceiling division whenever the total is
non-negative and the limit at least 1. -/
theorem go_totalPages_eq_ceil (a b : Int) (ha : 0 ≤ a) (hb : 1 ≤ b) :
    Int.tdiv (a + b - 1) b = ceilDivSpec a b := by
  have hb0 : (0 : Int) < b := by omega
  have hbne : b ≠ 0 := by omega
  have hsum : b * (a / b) + a % b = a := Int.ediv_add_emod a b
  have hr0 : 0 ≤ a % b := Int.emod_nonneg a hbne
  have hrb : a % b < b := Int.emod_lt_of_pos a hb0
  have htd : Int.tdiv (a + b - 1) b = (a + b - 1) / b :=
    Int.tdiv_eq_ediv (by omega) (by omega)
  have hL : (a + b - 1) / b = (a % b - 1) / b + (a / b + 1) := by
    have h := Int.add_mul_ediv_right (a % b - 1) (a / b + 1) hbne
    have e : a % b - 1 + (a / b + 1) * b = a + b - 1 := by
      nlinarith [hsum]
    rw [e] at h
    exact h
  have hf : Int.fdiv (-a) b = (-a) / b := Int.fdiv_eq_ediv (-a) (by omega)
  have hR : (-a) / b = (-(a % b)) / b + (-(a / b)) := by
    have h := Int.add_mul_ediv_right (-(a % b)) (-(a / b)) hbne
    have e : -(a % b) + -(a / b) * b = -a := by
      nlinarith [hsum]
    rw [e] at h
    exact h
  unfold ceilDivSpec
  rw [htd, hL, hf, hR]
  by_cases hc : a % b = 0
  · have h1 : (a % b - 1) / b = -1 := by
      have e1 : a % b - 1 = -1 := by omega
      rw [e1]; exact neg_one_ediv_pos hb0
    have h2 : (-(a % b)) / b = 0 := by
      have e2 : -(a % b) = 0 := by omega
      rw [e2]; exact Int.zero_ediv b
    rw [h1, h2]; ring
  · have h1 : (a % b - 1) / b = 0 :=
      Int.ediv_eq_zero_of_lt (by omega) (by omega)
    have h2 : (-(a % b)) / b = -1 := neg_emod_ediv_pos (by omega) hrb
    rw [h1, h2]; ring

/-- Clamping the zero value is a no-op. -/
theorem clampInt64_zero : clampInt64 0 = 0 := by decide

/-- Wrapping the zero value is a no-op. -/
theorem wrap64_zero : wrap64 0 = 0 := by decide

/-- Wrapping is the identity on values already in the int64 range. -/
theorem wrap64_eq_self {n : Int} (h1 : -9223372036854775808 ≤ n)
    (h2 : n ≤ 9223372036854775807) : wrap64 n = n := by
  unfold wrap64
  have h := Int.emod_eq_of_lt (a := n + 9223372036854775808)
    (b := 18446744073709551616) (by omega) (by omega)
  omega

/-- The value strconv.Atoi hands the handler always lies in the int64
range, thanks to the range-error clamping. -/
theorem atoi_range (s : String) : minInt64 ≤ atoi s ∧ atoi s ≤ maxInt64 := by
  unfold atoi clampInt64 minInt64 maxInt64
  split
  · omega
  · split <;> omega

/-- The wrapped Go total_pages computation still computes exact ceiling
division when the limit is at least 1 and the sum total+limit-1 stays
within int64. -/
theorem goWrapped_totalPages_eq_ceil (a b : Int) (ha : 0 ≤ a) (hb : 1 ≤ b)
    (hof : a + b - 1 ≤ maxInt64) :
    wrap64 (Int.tdiv (wrap64 (a + b - 1)) b) = ceilDivSpec a b := by
  have hof' : a + b - 1 ≤ 9223372036854775807 := hof
  have h1 : wrap64 (a + b - 1) = a + b - 1 :=
    wrap64_eq_self (by omega) (by omega)
  have ht0 : 0 ≤ Int.tdiv (a + b - 1) b := Int.tdiv_nonneg (by omega) (by omega)
  have htle : Int.tdiv (a + b - 1) b ≤ a + b - 1 := by
    rw [Int.tdiv_eq_ediv (by omega) (by omega)]
    exact Int.ediv_le_self b (by omega)
  rw [h1, wrap64_eq_self (by omega) (by omega)]
  exact go_totalPages_eq_ceil a b ha hb

end Helpers

/-- C10: an update request whose identifier does not parse as an
ObjectID fails with InvalidArgument, whatever the body (even a
malformed one, modelled as none), and the store is unchanged: the id is
parsed before the body is bound and before any store operation. -/
theorem updateMedicalRecord_invalid_id (id : String) (body : Option MedicalRecord)
    (now : Nat) (store : Store) (h : objectIDFromHex id = none) :
    updateMedicalRecord id body now store = (.invalidArgument, store) := by
  simp [updateMedicalRecord, h]

/-- C10 witness: a concrete malformed identifier together with a
malformed body yields InvalidArgument and leaves the store alone. -/
theorem updateMedicalRecord_invalid_id_witness :
    updateMedicalRecord "not-a-valid-id" none 7 [origRecord] =
      (.invalidArgument, [origRecord]) :=
  updateMedicalRecord_invalid_id "not-a-valid-id" none 7 [origRecord] (by decide)

/-- C6: a get-by-id request fails with InvalidArgument when the
identifier does not parse as an ObjectID, fails with NotFound when it
parses but matches no record, and otherwise returns the full stored
record; the store is unchanged in every case. -/
theorem getMedicalRecord_spec (id : String) (store : Store) :
    (objectIDFromHex id = none →
       getMedicalRecord id store = (.invalidArgument, store)) ∧
    (∀ oid, objectIDFromHex id = some oid → findByID oid store = none →
       getMedicalRecord id store = (.notFound, store)) ∧
    (∀ oid r, objectIDFromHex id = some oid → findByID oid store = some r →
       getMedicalRecord id store = (.ok r, store)) := by
  refine ⟨fun h => ?_, fun oid h1 h2 => ?_, fun oid r h1 h2 => ?_⟩
  · simp [getMedicalRecord, h]
  · simp [getMedicalRecord, h1, h2]
  · simp [getMedicalRecord, h1, h2]

/-- C6 witness: the three cases at concrete inputs. -/
theorem getMedicalRecord_spec_witness :
    getMedicalRecord "not-a-valid-id" [origRecord] =
      (.invalidArgument, [origRecord]) ∧
    getMedicalRecord "0000000000000000000000ff" [origRecord] =
      (.notFound, [origRecord]) ∧
    getMedicalRecord "000000000000000000000001" [origRecord] =
      (.ok origRecord, [origRecord]) :=
  ⟨(getMedicalRecord_spec "not-a-valid-id" [origRecord]).1 (by decide),
   (getMedicalRecord_spec "0000000000000000000000ff" [origRecord]).2.1 255
     (by decide) (by decide),
   (getMedicalRecord_spec "000000000000000000000001" [origRecord]).2.2 1 origRecord
     (by decide) (by decide)⟩

/-- C9: for a parsed identifier over a store with unique ids, deleting
with no match returns NotFound and changes nothing; deleting a match
returns no content, removes exactly that document, and a subsequent get
of the same identifier returns NotFound. -/
theorem deleteMedicalRecord_spec (id : String) (oid : Nat) (store : Store)
    (hid : objectIDFromHex id = some oid)
    (hnd : (store.map (fun r => r.id)).Nodup) :
    (findByID oid store = none →
       deleteMedicalRecord id store = (.notFound, store)) ∧
    (∀ r, findByID oid store = some r →
       deleteMedicalRecord id store = (.noContent, removeFirst oid store) ∧
       getMedicalRecord id (removeFirst oid store) =
         (.notFound, removeFirst oid store)) := by
  constructor
  · intro h
    simp [deleteMedicalRecord, hid, h]
  · intro r h
    refine ⟨by simp [deleteMedicalRecord, hid, h], ?_⟩
    have hn := findByID_removeFirst oid hnd
    simp [getMedicalRecord, hid, hn]

/-- C9 witness: deleting the stored document gives 204 and empties the
store, the follow-up get is NotFound, and deleting an absent id is
NotFound. -/
theorem deleteMedicalRecord_spec_witness :
    deleteMedicalRecord "000000000000000000000001" [origRecord] = (.noContent, []) ∧
    getMedicalRecord "000000000000000000000001" [] = (.notFound, []) ∧
    deleteMedicalRecord "0000000000000000000000ff" [origRecord] =
      (.notFound, [origRecord]) := by
  have h := (deleteMedicalRecord_spec "000000000000000000000001" 1 [origRecord]
      (by decide) (by decide)).2 origRecord (by decide)
  have h2 := (deleteMedicalRecord_spec "0000000000000000000000ff" 255 [origRecord]
      (by decide) (by decide)).1 (by decide)
  have e : removeFirst 1 [origRecord] = ([] : Store) := by decide
  rw [e] at h
  exact ⟨h.1, h.2, h2⟩

/-- C8: creating from a valid body with a fresh generated id persists
exactly the body with the server-assigned id and timestamps, and
fetching the returned identifier yields that same record, field for
field equal to the body modulo id, created_at and updated_at. -/
theorem create_then_get_roundtrip (p : MedicalRecord) (newId now : Nat)
    (store : Store) (hexId : String)
    (hval : validationIssues p = [])
    (hfresh : findByID newId store = none)
    (hhex : objectIDFromHex hexId = some newId) :
    createMedicalRecord (some p) newId now store =
      (.created { p with id := newId, created_at := now, updated_at := now },
       store ++ [{ p with id := newId, created_at := now, updated_at := now }]) ∧
    getMedicalRecord hexId
        (store ++ [{ p with id := newId, created_at := now, updated_at := now }]) =
      (.ok { p with id := newId, created_at := now, updated_at := now },
       store ++ [{ p with id := newId, created_at := now, updated_at := now }]) := by
  constructor
  · simp [createMedicalRecord, hval, hfresh]
  · have hf := findByID_append_right hfresh
      (r := { p with id := newId, created_at := now, updated_at := now }) rfl
    simp [getMedicalRecord, hhex, hf]

/-- C8 witness: the round trip at a concrete valid body. -/
theorem create_then_get_roundtrip_witness :
    createMedicalRecord (some updPayload) 1 9 [] =
      (.created { updPayload with
                  id := 1,
                  created_at := 9,
                  updated_at := 9 },
       [{ updPayload with
          id := 1,
          created_at := 9,
          updated_at := 9 }]) ∧
    getMedicalRecord "000000000000000000000001"
        [{ updPayload with
           id := 1,
           created_at := 9,
           updated_at := 9 }] =
      (.ok { updPayload with
             id := 1,
             created_at := 9,
             updated_at := 9 },
       [{ updPayload with
          id := 1,
          created_at := 9,
          updated_at := 9 }]) := by
  have h := create_then_get_roundtrip updPayload 1 9 [] "000000000000000000000001"
    (by decide) (by decide) (by decide)
  exact ⟨h.1, h.2⟩

/-- C4: for a nonempty patient identifier, the summary is NotFound when
no record matches, and otherwise succeeds with total_diagnoses,
total_prescriptions and total_lab_results equal to the sums of the
respective nested sequence lengths over the matching records (an absent
sequence counting as zero), alongside the other aggregates; the store
is unchanged. -/
theorem getPatientSummary_spec (pid : String) (store : Store) (hp : pid ≠ "") :
    (store.filter (fun r => r.patient_id == pid) = [] →
       getPatientSummary pid store = (.notFound, store)) ∧
    (store.filter (fun r => r.patient_id == pid) ≠ [] →
       getPatientSummary pid store =
         (.ok { patient_id := pid,
                total_records := (store.filter (fun r => r.patient_id == pid)).length,
                record_types := ((store.filter (fun r => r.patient_id == pid)).map
                  (fun r => r.record_type)).eraseDups,
                latest_record := ((store.filter (fun r => r.patient_id == pid)).map
                  (fun r => r.created_at)).foldl Nat.max 0,
                total_diagnoses :=
                  sumDiagLens (store.filter (fun r => r.patient_id == pid)),
                total_prescriptions :=
                  sumPresLens (store.filter (fun r => r.patient_id == pid)),
                total_lab_results :=
                  sumLabLens (store.filter (fun r => r.patient_id == pid)) },
          store)) := by
  constructor
  · intro h
    simp [getPatientSummary, hp, h]
  · intro h
    simp [getPatientSummary, hp, List.isEmpty_iff, h,
          sumDiagLens_eq, sumPresLens_eq, sumLabLens_eq]

/-- C4 witness: a patient with two records holding two and zero
diagnosis entries gives total_records 2 and total_diagnoses 2, and an
unknown patient gives NotFound. -/
theorem getPatientSummary_spec_witness :
    getPatientSummary "p1" [origRecord, secondRecord] =
      (.ok { patient_id := "p1", total_records := 2,
             record_types := ["consultation", "diagnosis"],
             latest_record := 6, total_diagnoses := 2,
             total_prescriptions := 0, total_lab_results := 0 },
       [origRecord, secondRecord]) ∧
    getPatientSummary "p9" [origRecord, secondRecord] =
      (.notFound, [origRecord, secondRecord]) := by
  have h1 := (getPatientSummary_spec "p1" [origRecord, secondRecord] (by decide)).2
    (by decide)
  have h2 := (getPatientSummary_spec "p9" [origRecord, secondRecord] (by decide)).1
    (by decide)
  exact ⟨h1.trans (by decide), h2⟩

/-- C1 counterexample: updating the stored record (created at clock 5,
description "keep me") with a body that omits created_at and the
description persists a record whose created_at is 0, not the original
5, and whose description was cleared although the body did not provide
one: the claim that created_at is unchanged and only provided fields
plus updated_at are modified is false on the code. -/
theorem update_changes_created_at_counterexample :
    (updateMedicalRecord "000000000000000000000001" (some updPayload) 10
        [origRecord]).2 =
      [{ updPayload with
         id := 1,
         updated_at := 10 }] ∧
    origRecord.created_at = 5 ∧
    ({ updPayload with
       id := 1,
       updated_at := 10 } : MedicalRecord).created_at = 0 ∧
    ({ updPayload with
       id := 1,
       updated_at := 10 } : MedicalRecord).description ≠ origRecord.description := by
  decide

/-- C1 (amended): a successful update with a body carrying the zero id
replaces every stored field except the identifier with the body value
and sets updated_at to the server clock; created_at afterwards is the
body value (the Go zero time when the client omits it), not necessarily
the value at creation. -/
theorem update_replaces_every_field (id : String) (oid : Nat)
    (u old : MedicalRecord) (now : Nat) (store : Store)
    (hid : objectIDFromHex id = some oid)
    (hu : u.id = 0)
    (hold : findByID oid store = some old) :
    updateMedicalRecord id (some u) now store =
      (.ok { u with id := oid, updated_at := now },
       replaceFirst oid { u with id := oid, updated_at := now } store) := by
  have hrep := findByID_replaceFirst oid
      { u with id := oid, updated_at := now } rfl hold
  simp [updateMedicalRecord, hid, hold, hu, hrep]

/-- C1 witness: the amended statement at the concrete store. -/
theorem update_replaces_every_field_witness :
    updateMedicalRecord "000000000000000000000001" (some updPayload) 10
        [origRecord] =
      (.ok { updPayload with
             id := 1,
             updated_at := 10 },
       [{ updPayload with
          id := 1,
          updated_at := 10 }]) := by
  have h := update_replaces_every_field "000000000000000000000001" 1 updPayload
      origRecord 10 [origRecord] (by decide) (by decide) (by decide)
  exact h.trans (by decide)

/-- C2: the sequence create (valid body) then update with an
out-of-set record_type persists a document violating the record_type
enumeration, because the update handler never invokes the validator
even though the struct tags declare the closed set. -/
theorem update_persists_invalid_record_type :
    (updateMedicalRecord "000000000000000000000001" (some bogusTypePayload) 6
        (createMedicalRecord (some updPayload) 1 5 []).2).2 =
      [{ bogusTypePayload with
         id := 1,
         updated_at := 6 }] ∧
    recordTypeValues.contains
      ({ bogusTypePayload with
         id := 1,
         updated_at := 6 } : MedicalRecord).record_type = false := by
  decide

/-- C7: a create body that is valid at top level but carries a nested
diagnosis entry with out-of-set severity and status values is accepted
with 201 and persisted, because the validator never descends into the
diagnosis slice; the claim that such a payload fails with
ValidationError and persists nothing is false on the code. -/
theorem create_accepts_invalid_nested_enums :
    createMedicalRecord (some nestedBadPayload) 2 5 [] =
      (.created { nestedBadPayload with
                  id := 2,
                  created_at := 5,
                  updated_at := 5 },
       [{ nestedBadPayload with
          id := 2,
          created_at := 5,
          updated_at := 5 }]) ∧
    severityValues.contains badDiagnosis.severity = false ∧
    diagnosisStatusValues.contains badDiagnosis.status = false := by
  decide

/-- C3 counterexample: a list request whose limit is malformed is not
served as page 1 with the default page size; the limit parses to 0 and
the total_pages division panics (surfaced as a 500), so the request
does not succeed. -/
theorem malformed_limit_counterexample :
    getMedicalRecords "" "" none (some "abc") [origRecord] =
      (.panicked, [origRecord]) := by
  decide

/-- C3 (amended): malformed pagination values are coerced to 0 by the
discarded-error number parse, and the request fails rather than being
served with page-1 defaults: a malformed limit makes the total_pages
division panic, and a malformed page with a positive limit produces a
negative skip that the store rejects, surfaced as InternalError. -/
theorem malformed_pagination_spec (pid rt s : String) (page limit : Option String)
    (store : Store) :
    (atoiOpt s = none →
       getMedicalRecords pid rt page (some s) store = (.panicked, store)) ∧
    (atoiOpt s = none → 1 ≤ atoi (limit.getD "10") →
       getMedicalRecords pid rt (some s) limit store = (.internalError, store)) := by
  constructor
  · intro h
    simp [getMedicalRecords, atoi, h, clampInt64_zero, wrap64_zero]
  · intro h hl
    have h0 : atoi s = 0 := by simp [atoi, h, clampInt64_zero]
    have hLle : atoi (limit.getD "10") ≤ 9223372036854775807 :=
      (atoi_range (limit.getD "10")).2
    have hw : wrap64 ((atoi s - 1) * atoi (limit.getD "10")) =
        -(atoi (limit.getD "10")) := by
      rw [h0]
      have e : ((0 : Int) - 1) * atoi (limit.getD "10") =
          -(atoi (limit.getD "10")) := by ring
      rw [e]
      exact wrap64_eq_self (by omega) (by omega)
    have hcond : wrap64 ((atoi s - 1) * atoi (limit.getD "10")) < 0 := by
      rw [hw]; omega
    simp only [getMedicalRecords, Option.getD_some]
    rw [if_pos hcond]

/-- C3 witness: both failure modes at concrete inputs. -/
theorem malformed_pagination_spec_witness :
    getMedicalRecords "" "" none (some "12x") [] = (.panicked, []) ∧
    getMedicalRecords "" "" (some "12x") none [] = (.internalError, []) :=
  ⟨(malformed_pagination_spec "" "" "12x" none none []).1 (by decide),
   (malformed_pagination_spec "" "" "12x" none none []).2 (by decide) (by decide)⟩

/-- C5 counterexample: a list request with limit -2 over a store of one
record returns total_pages 1, while the ceiling of total/limit,
ceil(1 / -2), is 0: the claimed formula fails for a request whose limit
is negative. -/
theorem list_pagination_counterexample :
    getMedicalRecords "" "" none (some "-2") [origRecord] =
      (.ok { records := [origRecord], total := 1, page := 1, limit := -2,
             total_pages := 1, has_next := false, has_previous := false },
       [origRecord]) ∧
    ceilDivSpec 1 (-2) = 0 ∧ (1 : Int) ≠ 0 := by
  decide

/-- C5 (amended): for every list request whose parsed limit is at least
1 and whose Go sum total + limit - 1 stays within int64 (so the 64-bit
addition does not wrap), the returned metadata satisfies total_pages =
ceil(total / limit), has_next = (page < total_pages) and has_previous =
(page > 1); outside those bounds the wrapping arithmetic departs from
the ceiling, as the int64 wrap theorem below exhibits. -/
theorem list_pagination_spec (pid rt : String) (page limit : Option String)
    (store : Store) (resp : ListResponse) (s' : Store)
    (hlim : 1 ≤ atoi (limit.getD "10"))
    (hof : Int.ofNat (store.filter (matchesFilter pid rt)).length +
        atoi (limit.getD "10") - 1 ≤ maxInt64)
    (h : getMedicalRecords pid rt page limit store = (.ok resp, s')) :
    resp.total_pages = ceilDivSpec resp.total resp.limit ∧
    resp.has_next = decide (resp.page < resp.total_pages) ∧
    resp.has_previous = decide (1 < resp.page) := by
  have hne : atoi (limit.getD "10") ≠ 0 := by omega
  simp only [getMedicalRecords] at h
  split at h
  · simp at h
  · rw [Prod.mk.injEq] at h
    obtain ⟨h1, h2⟩ := h
    rw [ListResult.ok.injEq] at h1
    subst h1
    exact ⟨goWrapped_totalPages_eq_ceil _ _ (Int.ofNat_nonneg _) hlim hof, rfl, rfl⟩

/-- C5 witness: the amended statement at the default one-page request
over a one-record store. -/
theorem list_pagination_spec_witness :
    respW.total_pages = ceilDivSpec respW.total respW.limit ∧
    respW.has_next = decide (respW.page < respW.total_pages) ∧
    respW.has_previous = decide (1 < respW.page) :=
  list_pagination_spec "" "" none none [origRecord] respW [origRecord]
    (by decide) (by decide) (by decide)

/-- The int64 wrap at the overflow boundary: with two stored records
and limit maxInt64 the Go sum total + limit - 1 wraps to minInt64 and
the service answers 200 with total_pages -1, while exact ceiling
division gives 1; this is the boundary the no-overflow hypothesis of
the pagination theorem excludes. -/
theorem list_pagination_int64_wrap :
    getMedicalRecords "" "" none (some "9223372036854775807")
        [origRecord, secondRecord] =
      (.ok { records := [secondRecord, origRecord], total := 2, page := 1,
             limit := 9223372036854775807, total_pages := -1,
             has_next := false, has_previous := false },
       [origRecord, secondRecord]) ∧
    ceilDivSpec 2 9223372036854775807 = 1 := by
  decide
